import Mathlib

/-!
Verification of the libvirt compute driver
(`libcloud/compute/drivers/libvirt_driver.py`).

The driver is a thin translation shim over the external libvirt client
library.  We embed the driver's code directly; the external collaborators
(the libvirt `Connection` and `Domain` objects, the generic `Node` record)
are modelled from the collaborator contract stated in the spec (section 6):
every native call either raises a Python exception or returns a value, which
we model with `Except PyError`.
-/

namespace LibvirtSpec

/-- A Python exception value, as far as this driver observes them:
`RuntimeError` raised by the constructor when the libvirt package is
missing, `libvirtError` raised by native libvirt calls, and any other
exception an injected collaborator may raise. -/
inductive PyError where
  | runtimeError (msg : String)
  | libvirtError (msg : String)
  | other (tag : String)
deriving DecidableEq, Repr

/-- The generic node states used by the driver
(from `libcloud.compute.base.NodeState`, an out-of-scope collaborator). -/
inductive NodeState where
  | RUNNING
  | REBOOTING
  | TERMINATED
  | PENDING
  | UNKNOWN
deriving DecidableEq, Repr

/-- The five-tuple returned by `domain.info()`:
`(state, max_mem, memory, vcpu_count, used_cpu_time)`. -/
structure DomainInfo where
  state : Int
  max_mem : Nat
  memory : Nat
  vcpu_count : Nat
  used_cpu_time : Nat
deriving Repr

/-- A native libvirt domain object, modelled from the collaborator contract
(spec section 6): accessors `ID`, `name`, `UUIDString`, `OSType`; the
fallible `info()` call; and the mutating calls, each of which either raises
or returns an integer code (0 = success). `reboot` takes a flags argument. -/
structure Domain where
  ID : Int
  name : String
  UUIDString : String
  OSType : String
  info : Except PyError DomainInfo
  reboot : Int → Except PyError Int
  destroy : Except PyError Int
  create : Except PyError Int
  shutdown : Except PyError Int
  suspend : Except PyError Int
  resume : Except PyError Int

/-- A native libvirt connection, modelled from the collaborator contract
(spec section 6): `listAllDomains()` reports an ordered sequence of
domains, `getType()` reports the hypervisor type string. -/
structure Connection where
  domains : List Domain
  getType : String

/-- `Connection.listAllDomains()`. -/
def Connection.listAllDomains (c : Connection) : List Domain :=
  c.domains

/-- `Connection.lookupByUUIDString(uuid)`: modelled from the collaborator
contract (spec section 6) — returns the domain with the given UUID string,
and fails (raises a `libvirtError`) if no such domain exists. -/
def Connection.lookupByUUIDString (c : Connection) (uuidstr : String) :
    Except PyError Domain :=
  match c.domains.find? (fun d => d.UUIDString == uuidstr) with
  | some d => Except.ok d
  | none => Except.error (PyError.libvirtError
      ("virDomainLookupByUUIDString failed for " ++ uuidstr))

/-- The `extra` attribute mapping attached to each listed node
(`libvirt_driver.py` lines 76-79). -/
structure Extra where
  uuid : String
  os_type : String
  types : String
  used_memory : Nat
  vcpu_count : Nat
  used_cpu_time : Nat
deriving DecidableEq, Repr

/-- The generic `Node` record as this driver populates it.  The source
constructs a `Node` and then overrides `node._uuid` with the domain UUID
string; the `uuid` field here carries that overridden value. -/
structure Node where
  id : Int
  name : String
  state : NodeState
  public_ips : List String
  private_ips : List String
  extra : Extra
  uuid : String
deriving DecidableEq, Repr

/-- The driver instance: a URI and the connection opened at construction
(`libvirt_driver.py` lines 50-61). -/
structure LibvirtNodeDriver where
  _uri : String
  connection : Connection

/-- `LibvirtNodeDriver.NODE_STATE_MAP` (lines 39-48): the fixed table from
hypervisor state code to generic node state. -/
def NODE_STATE_MAP : List (Int × NodeState) :=
  [(0, NodeState.TERMINATED),
   (1, NodeState.RUNNING),
   (2, NodeState.PENDING),
   (3, NodeState.TERMINATED),
   (4, NodeState.TERMINATED),
   (5, NodeState.TERMINATED),
   (6, NodeState.UNKNOWN),
   (7, NodeState.UNKNOWN)]

/-- The state translation performed inside `list_nodes` (lines 70-73):
`if state in NODE_STATE_MAP: state = NODE_STATE_MAP[state]
 else: state = NodeState.UNKNOWN`. -/
def mapState (code : Int) : NodeState :=
  match NODE_STATE_MAP.lookup code with
  | some s => s
  | none => NodeState.UNKNOWN

/-- The body of the `for domain in domains` loop of `list_nodes`
(lines 67-85): fetch the info tuple, map the state, build the `extra`
mapping and the `Node`, overriding its uuid with the domain UUID string. -/
def node_of_domain (conn_type : String) (domain : Domain) :
    Except PyError Node := do
  let i ← domain.info
  let state := mapState i.state
  let extra : Extra :=
    { uuid := domain.UUIDString, os_type := domain.OSType,
      types := conn_type,
      used_memory := i.memory / 1024, vcpu_count := i.vcpu_count,
      used_cpu_time := i.used_cpu_time }
  Except.ok
    { id := domain.ID, name := domain.name, state := state,
      public_ips := [], private_ips := [], extra := extra,
      uuid := domain.UUIDString }

/-- The accumulation of the `nodes` list across the loop of `list_nodes`:
each iteration appends one node, and an exception from any iteration
aborts the whole call. -/
def list_nodes_loop (conn_type : String) :
    List Domain → Except PyError (List Node)
  | [] => Except.ok []
  | domain :: rest => do
    let node ← node_of_domain conn_type domain
    let nodes ← list_nodes_loop conn_type rest
    Except.ok (node :: nodes)

/-- `LibvirtNodeDriver.list_nodes` (lines 63-87). -/
def LibvirtNodeDriver.list_nodes (self : LibvirtNodeDriver) :
    Except PyError (List Node) :=
  list_nodes_loop self.connection.getType self.connection.listAllDomains

/-- `LibvirtNodeDriver._get_domain_for_node` (lines 145-150). -/
def LibvirtNodeDriver._get_domain_for_node (self : LibvirtNodeDriver)
    (node : Node) : Except PyError Domain :=
  self.connection.lookupByUUIDString node.uuid

/-- `LibvirtNodeDriver.reboot_node` (lines 89-91). -/
def LibvirtNodeDriver.reboot_node (self : LibvirtNodeDriver) (node : Node) :
    Except PyError Bool := do
  let domain ← self._get_domain_for_node node
  let r ← domain.reboot 0
  Except.ok (r == 0)

/-- `LibvirtNodeDriver.destroy_node` (lines 93-95). -/
def LibvirtNodeDriver.destroy_node (self : LibvirtNodeDriver) (node : Node) :
    Except PyError Bool := do
  let domain ← self._get_domain_for_node node
  let r ← domain.destroy
  Except.ok (r == 0)

/-- `LibvirtNodeDriver.ex_start_node` (lines 97-107). -/
def LibvirtNodeDriver.ex_start_node (self : LibvirtNodeDriver) (node : Node) :
    Except PyError Bool := do
  let domain ← self._get_domain_for_node node
  let r ← domain.create
  Except.ok (r == 0)

/-- `LibvirtNodeDriver.ex_shutdown_node` (lines 109-119). -/
def LibvirtNodeDriver.ex_shutdown_node (self : LibvirtNodeDriver)
    (node : Node) : Except PyError Bool := do
  let domain ← self._get_domain_for_node node
  let r ← domain.shutdown
  Except.ok (r == 0)

/-- `LibvirtNodeDriver.ex_suspend_node` (lines 121-131). -/
def LibvirtNodeDriver.ex_suspend_node (self : LibvirtNodeDriver)
    (node : Node) : Except PyError Bool := do
  let domain ← self._get_domain_for_node node
  let r ← domain.suspend
  Except.ok (r == 0)

/-- `LibvirtNodeDriver.ex_resume_node` (lines 133-143). -/
def LibvirtNodeDriver.ex_resume_node (self : LibvirtNodeDriver)
    (node : Node) : Except PyError Bool := do
  let domain ← self._get_domain_for_node node
  let r ← domain.resume
  Except.ok (r == 0)

/-- `LibvirtNodeDriver.__init__` (lines 50-61).  `have_libvirt` is the
module-level flag (lines 20-24) recording whether the libvirt package
imported; `libvirt_open` is the external `libvirt.open` call.  When the
flag is false a `RuntimeError` is raised before any open is attempted;
otherwise the connection is opened and any error from the open call
propagates unwrapped. -/
def LibvirtNodeDriver.construct (have_libvirt : Bool)
    (libvirt_open : String → Except PyError Connection) (uri : String) :
    Except PyError LibvirtNodeDriver :=
  if have_libvirt = false then
    Except.error (PyError.runtimeError
      "Libvirt driver requires libvirt Python package")
  else do
    let conn ← libvirt_open uri
    Except.ok { _uri := uri, connection := conn }

/-- The node value the loop body of `list_nodes` constructs for a domain
whose `info()` call returned `i` (lines 76-84), including the uuid
override. -/
def loop_node (conn_type : String) (domain : Domain) (i : DomainInfo) :
    Node :=
  { id := domain.ID, name := domain.name, state := mapState i.state,
    public_ips := [], private_ips := [],
    extra := { uuid := domain.UUIDString, os_type := domain.OSType,
               types := conn_type, used_memory := i.memory / 1024,
               vcpu_count := i.vcpu_count,
               used_cpu_time := i.used_cpu_time },
    uuid := domain.UUIDString }

/-! ### Concrete sample values, used to instantiate witness theorems -/

/-- A sample info tuple with state code 1 (running). -/
def sampleInfo1 : DomainInfo :=
  { state := 1, max_mem := 4096, memory := 2048, vcpu_count := 2,
    used_cpu_time := 100 }

/-- A sample info tuple with state code 5 (shut off). -/
def sampleInfo2 : DomainInfo :=
  { state := 5, max_mem := 4096, memory := 1024, vcpu_count := 1,
    used_cpu_time := 7 }

/-- A sample domain whose mutating calls all return code 0. -/
def sampleDomain1 : Domain :=
  { ID := 1, name := "vm1", UUIDString := "uuid-1", OSType := "hvm",
    info := Except.ok sampleInfo1,
    reboot := fun _ => Except.ok 0, destroy := Except.ok 0,
    create := Except.ok 0, shutdown := Except.ok 0,
    suspend := Except.ok 0, resume := Except.ok 0 }

/-- A sample domain whose mutating calls all return code 1. -/
def sampleDomain2 : Domain :=
  { ID := 2, name := "vm2", UUIDString := "uuid-2", OSType := "hvm",
    info := Except.ok sampleInfo2,
    reboot := fun _ => Except.ok 1, destroy := Except.ok 1,
    create := Except.ok 1, shutdown := Except.ok 1,
    suspend := Except.ok 1, resume := Except.ok 1 }

/-- A sample connection reporting the two sample domains. -/
def sampleConnection : Connection :=
  { domains := [sampleDomain1, sampleDomain2], getType := "QEMU" }

/-- A sample driver over the sample connection. -/
def sampleDriver : LibvirtNodeDriver :=
  { _uri := "qemu:///system", connection := sampleConnection }

/-- The node `list_nodes` produces for `sampleDomain1`. -/
def sampleNode1 : Node := loop_node "QEMU" sampleDomain1 sampleInfo1

/-- The node `list_nodes` produces for `sampleDomain2`. -/
def sampleNode2 : Node := loop_node "QEMU" sampleDomain2 sampleInfo2

/-- A node with the same uuid as `sampleNode1` but different other
fields. -/
def sampleNodeAlt : Node := { sampleNode1 with name := "renamed", id := 99 }

/-- A node whose uuid resolves to no domain of `sampleConnection`. -/
def missingNode : Node := { sampleNode1 with uuid := "no-such-uuid" }

/-- A domain whose `info()` call raises. -/
def badDomain : Domain :=
  { sampleDomain2 with info := Except.error (PyError.other "boom") }

/-- A driver whose second domain fails its `info()` call. -/
def badDriver : LibvirtNodeDriver :=
  { _uri := "qemu:///system",
    connection := { domains := [sampleDomain1, badDomain],
                    getType := "QEMU" } }

/-! ## Shared lemmas about the listing loop -/

/-- `node_of_domain` fails exactly when the `info()` call fails, with the
same exception. -/
theorem node_of_domain_error (t : String) (d : Domain) (e : PyError)
    (h : d.info = Except.error e) :
    node_of_domain t d = Except.error e := by
  simp only [node_of_domain, h, bind, Except.bind]

/-- When the `info()` call succeeds, `node_of_domain` returns exactly the
node the loop body constructs. -/
theorem node_of_domain_ok (t : String) (d : Domain) (i : DomainInfo)
    (h : d.info = Except.ok i) :
    node_of_domain t d = Except.ok (loop_node t d i) := by
  simp only [node_of_domain, loop_node, h, bind, Except.bind]

/-- Inversion: a successfully constructed node came from a successful
`info()` call and is exactly the loop-body value. -/
theorem node_of_domain_ok_inv (t : String) (d : Domain) (n : Node)
    (h : node_of_domain t d = Except.ok n) :
    ∃ i, d.info = Except.ok i ∧ n = loop_node t d i := by
  obtain ⟨e, he⟩ | ⟨i, hi⟩ :
      (∃ e, d.info = Except.error e) ∨ (∃ i, d.info = Except.ok i) := by
    cases d.info with
    | error e => exact Or.inl ⟨e, rfl⟩
    | ok i => exact Or.inr ⟨i, rfl⟩
  · rw [node_of_domain_error t d e he] at h
    exact absurd h (by simp)
  · rw [node_of_domain_ok t d i hi] at h
    injection h with h
    exact ⟨i, hi, h.symm⟩

/-- Structural correspondence of the listing loop: a successful run yields
one node per domain, in order, each produced by the loop body from the
domain at the same index. -/
theorem list_nodes_loop_spec (t : String) (ds : List Domain)
    (ns : List Node) (h : list_nodes_loop t ds = Except.ok ns) :
    ns.length = ds.length ∧
    ∀ i (hd : i < ds.length) (hn : i < ns.length),
      node_of_domain t (ds.get ⟨i, hd⟩) = Except.ok (ns.get ⟨i, hn⟩) := by
  induction ds generalizing ns with
  | nil =>
    simp only [list_nodes_loop] at h
    cases h
    exact ⟨rfl, fun i hd => absurd hd (Nat.not_lt_zero i)⟩
  | cons d rest ih =>
    simp only [list_nodes_loop] at h
    cases hnd : node_of_domain t d with
    | error e => rw [hnd] at h; exact absurd h (by simp [bind, Except.bind])
    | ok n =>
      rw [hnd] at h
      cases hrest : list_nodes_loop t rest with
      | error e => rw [hrest] at h; exact absurd h (by simp [bind, Except.bind])
      | ok ms =>
        rw [hrest] at h
        simp only [bind, Except.bind] at h
        cases h
        obtain ⟨hlen, hidx⟩ := ih ms hrest
        refine ⟨by simp [hlen], ?_⟩
        intro i hd hn
        cases i with
        | zero => simpa using hnd
        | succ j =>
          have hj : j < rest.length := Nat.lt_of_succ_lt_succ hd
          have hj' : j < ms.length := by omega
          simpa using hidx j hj hj'

/-- If every domain before index `i` has a successful `info()` call and the
domain at index `i` fails with exception `e`, the loop propagates `e`. -/
theorem list_nodes_loop_first_error (t : String) (ds : List Domain)
    (i : Nat) (hi : i < ds.length) (e : PyError)
    (hok : ∀ j (hj : j < ds.length), j < i →
      ∃ inf, (ds.get ⟨j, hj⟩).info = Except.ok inf)
    (herr : (ds.get ⟨i, hi⟩).info = Except.error e) :
    list_nodes_loop t ds = Except.error e := by
  induction ds generalizing i with
  | nil => exact absurd hi (Nat.not_lt_zero i)
  | cons d rest ih =>
    cases i with
    | zero =>
      simp only [List.get] at herr
      simp only [list_nodes_loop, node_of_domain_error t d e herr,
        bind, Except.bind]
    | succ j =>
      obtain ⟨inf0, hinf0⟩ := hok 0 (Nat.succ_pos _) (Nat.succ_pos j)
      simp only [List.get] at hinf0
      have hj : j < rest.length := Nat.lt_of_succ_lt_succ hi
      have hrest : list_nodes_loop t rest = Except.error e := by
        refine ih j hj ?_ (by simpa using herr)
        intro k hk hklt
        have := hok (k + 1) (Nat.succ_lt_succ hk) (Nat.succ_lt_succ hklt)
        simpa using this
      simp only [list_nodes_loop, node_of_domain_ok t d inf0 hinf0,
        hrest, bind, Except.bind]

/-- When the hypervisor reports pairwise-distinct UUID strings, `find?` on
a domain's own UUID string returns that very domain. -/
theorem find_self (ds : List Domain)
    (huniq : (ds.map Domain.UUIDString).Nodup)
    (i : Nat) (hi : i < ds.length) :
    ds.find? (fun d => d.UUIDString == (ds.get ⟨i, hi⟩).UUIDString) =
      some (ds.get ⟨i, hi⟩) := by
  induction ds generalizing i with
  | nil => exact absurd hi (Nat.not_lt_zero i)
  | cons d rest ih =>
    rw [List.map_cons, List.nodup_cons] at huniq
    obtain ⟨hnotin, hrest⟩ := huniq
    cases i with
    | zero =>
      simp only [List.get]
      rw [List.find?_cons_of_pos _ (by simp)]
    | succ j =>
      have hj : j < rest.length := Nat.lt_of_succ_lt_succ hi
      have hget : (d :: rest).get ⟨j + 1, hi⟩ = rest.get ⟨j, hj⟩ := rfl
      rw [hget]
      have hmem : (rest.get ⟨j, hj⟩).UUIDString ∈
          rest.map Domain.UUIDString :=
        List.mem_map_of_mem _ (rest.get_mem j hj)
      have hne : ¬((fun x : Domain =>
          x.UUIDString == (rest.get ⟨j, hj⟩).UUIDString) d = true) := by
        simp only [beq_iff_eq]
        intro hstr
        exact hnotin (hstr ▸ hmem)
      rw [List.find?_cons_of_neg rest hne]
      exact ih hrest j hj

/-- Looking up a listed domain by its own UUID string succeeds and returns
that domain, provided the reported UUID strings are pairwise distinct. -/
theorem lookup_self (c : Connection)
    (huniq : (c.domains.map Domain.UUIDString).Nodup)
    (i : Nat) (hi : i < c.domains.length) :
    c.lookupByUUIDString ((c.domains.get ⟨i, hi⟩).UUIDString) =
      Except.ok (c.domains.get ⟨i, hi⟩) := by
  unfold Connection.lookupByUUIDString
  rw [find_self c.domains huniq i hi]

/-! ## Claims -/

/-- C1: the state mapping used by `list_nodes` returns exactly the fixed
table 0 ↦ TERMINATED, 1 ↦ RUNNING, 2 ↦ PENDING, 3 ↦ TERMINATED,
4 ↦ TERMINATED, 5 ↦ TERMINATED, 6 ↦ UNKNOWN, 7 ↦ UNKNOWN, and UNKNOWN for
every integer code outside 0-7. -/
theorem state_map_is_fixed_table :
    mapState 0 = NodeState.TERMINATED ∧
    mapState 1 = NodeState.RUNNING ∧
    mapState 2 = NodeState.PENDING ∧
    mapState 3 = NodeState.TERMINATED ∧
    mapState 4 = NodeState.TERMINATED ∧
    mapState 5 = NodeState.TERMINATED ∧
    mapState 6 = NodeState.UNKNOWN ∧
    mapState 7 = NodeState.UNKNOWN ∧
    ∀ code : Int, (code < 0 ∨ 7 < code) →
      mapState code = NodeState.UNKNOWN := by
  refine ⟨rfl, rfl, rfl, rfl, rfl, rfl, rfl, rfl, ?_⟩
  intro c hc
  have h0 : (c == (0 : Int)) = false := beq_eq_false_iff_ne.mpr (by omega)
  have h1 : (c == (1 : Int)) = false := beq_eq_false_iff_ne.mpr (by omega)
  have h2 : (c == (2 : Int)) = false := beq_eq_false_iff_ne.mpr (by omega)
  have h3 : (c == (3 : Int)) = false := beq_eq_false_iff_ne.mpr (by omega)
  have h4 : (c == (4 : Int)) = false := beq_eq_false_iff_ne.mpr (by omega)
  have h5 : (c == (5 : Int)) = false := beq_eq_false_iff_ne.mpr (by omega)
  have h6 : (c == (6 : Int)) = false := beq_eq_false_iff_ne.mpr (by omega)
  have h7 : (c == (7 : Int)) = false := beq_eq_false_iff_ne.mpr (by omega)
  simp [mapState, NODE_STATE_MAP, List.lookup, h0, h1, h2, h3, h4, h5, h6,
    h7]

/-- Witness for C1: a concrete out-of-range code maps to UNKNOWN. -/
theorem state_map_is_fixed_table_witness :
    ((42 : Int) < 0 ∨ 7 < (42 : Int)) ∧
      mapState 42 = NodeState.UNKNOWN :=
  ⟨Or.inr (by decide),
   state_map_is_fixed_table.2.2.2.2.2.2.2.2 42 (Or.inr (by decide))⟩

/-- C2: for every node and every mutating operation, when the UUID lookup
succeeds and the underlying native call returns an integer code, the
operation returns the boolean `code == 0` (so: true iff the code is
exactly 0, false for every non-zero code, and never an exception purely
from a non-zero code). -/
theorem mutating_ops_return_code_contract (drv : LibvirtNodeDriver)
    (n : Node) (d : Domain)
    (hlook : drv._get_domain_for_node n = Except.ok d) :
    (∀ r : Int, d.reboot 0 = Except.ok r →
      drv.reboot_node n = Except.ok (r == 0) ∧
      (drv.reboot_node n = Except.ok true ↔ r = 0)) ∧
    (∀ r : Int, d.destroy = Except.ok r →
      drv.destroy_node n = Except.ok (r == 0) ∧
      (drv.destroy_node n = Except.ok true ↔ r = 0)) ∧
    (∀ r : Int, d.create = Except.ok r →
      drv.ex_start_node n = Except.ok (r == 0) ∧
      (drv.ex_start_node n = Except.ok true ↔ r = 0)) ∧
    (∀ r : Int, d.shutdown = Except.ok r →
      drv.ex_shutdown_node n = Except.ok (r == 0) ∧
      (drv.ex_shutdown_node n = Except.ok true ↔ r = 0)) ∧
    (∀ r : Int, d.suspend = Except.ok r →
      drv.ex_suspend_node n = Except.ok (r == 0) ∧
      (drv.ex_suspend_node n = Except.ok true ↔ r = 0)) ∧
    (∀ r : Int, d.resume = Except.ok r →
      drv.ex_resume_node n = Except.ok (r == 0) ∧
      (drv.ex_resume_node n = Except.ok true ↔ r = 0)) := by
  refine ⟨?_, ?_, ?_, ?_, ?_, ?_⟩ <;> intro r hr
  · have h : drv.reboot_node n = Except.ok (r == 0) := by
      simp only [LibvirtNodeDriver.reboot_node, hlook, hr, bind,
        Except.bind]
    exact ⟨h, by rw [h]; simp⟩
  · have h : drv.destroy_node n = Except.ok (r == 0) := by
      simp only [LibvirtNodeDriver.destroy_node, hlook, hr, bind,
        Except.bind]
    exact ⟨h, by rw [h]; simp⟩
  · have h : drv.ex_start_node n = Except.ok (r == 0) := by
      simp only [LibvirtNodeDriver.ex_start_node, hlook, hr, bind,
        Except.bind]
    exact ⟨h, by rw [h]; simp⟩
  · have h : drv.ex_shutdown_node n = Except.ok (r == 0) := by
      simp only [LibvirtNodeDriver.ex_shutdown_node, hlook, hr, bind,
        Except.bind]
    exact ⟨h, by rw [h]; simp⟩
  · have h : drv.ex_suspend_node n = Except.ok (r == 0) := by
      simp only [LibvirtNodeDriver.ex_suspend_node, hlook, hr, bind,
        Except.bind]
    exact ⟨h, by rw [h]; simp⟩
  · have h : drv.ex_resume_node n = Except.ok (r == 0) := by
      simp only [LibvirtNodeDriver.ex_resume_node, hlook, hr, bind,
        Except.bind]
    exact ⟨h, by rw [h]; simp⟩

/-- Witness for C2: on the sample driver, a reboot whose native call
returns code 0 yields true, and a destroy on the second domain whose
native call returns code 1 yields false (no exception). -/
theorem mutating_ops_return_code_contract_witness :
    sampleDriver.reboot_node sampleNode1 = Except.ok true ∧
    sampleDriver.destroy_node sampleNode2 = Except.ok false :=
  ⟨((mutating_ops_return_code_contract sampleDriver sampleNode1
      sampleDomain1 rfl).1 0 rfl).2.mpr rfl,
   ((mutating_ops_return_code_contract sampleDriver sampleNode2
      sampleDomain2 rfl).2.1 1 rfl).1⟩

/-- C3: a successful `list_nodes` yields exactly one node per reported
domain, each node's uuid equals its domain's UUID string, and (UUID
strings being pairwise distinct, as a hypervisor reports them) looking
that uuid back up through the connection returns the same domain. -/
theorem list_nodes_uuid_roundtrip (drv : LibvirtNodeDriver)
    (ns : List Node) (h : drv.list_nodes = Except.ok ns)
    (huniq : (drv.connection.domains.map Domain.UUIDString).Nodup) :
    ns.length = drv.connection.listAllDomains.length ∧
    ∀ i (hd : i < drv.connection.listAllDomains.length)
      (hn : i < ns.length),
      (ns.get ⟨i, hn⟩).uuid =
        (drv.connection.listAllDomains.get ⟨i, hd⟩).UUIDString ∧
      drv.connection.lookupByUUIDString ((ns.get ⟨i, hn⟩).uuid) =
        Except.ok (drv.connection.listAllDomains.get ⟨i, hd⟩) := by
  obtain ⟨hlen, hidx⟩ := list_nodes_loop_spec _ _ _ h
  refine ⟨hlen, ?_⟩
  intro i hd hn
  obtain ⟨inf, _, hnode⟩ := node_of_domain_ok_inv _ _ _ (hidx i hd hn)
  have huuid : (ns.get ⟨i, hn⟩).uuid =
      (drv.connection.listAllDomains.get ⟨i, hd⟩).UUIDString := by
    rw [hnode]; rfl
  refine ⟨huuid, ?_⟩
  rw [huuid]
  exact lookup_self drv.connection huniq i hd

/-- Witness for C3: the sample driver lists its two domains, the first
node's uuid is the first domain's UUID string, and looking it back up
returns that domain. -/
theorem list_nodes_uuid_roundtrip_witness :
    sampleDriver.list_nodes = Except.ok [sampleNode1, sampleNode2] ∧
    sampleNode1.uuid = sampleDomain1.UUIDString ∧
    sampleConnection.lookupByUUIDString sampleNode1.uuid =
      Except.ok sampleDomain1 := by
  have h : sampleDriver.list_nodes = Except.ok [sampleNode1, sampleNode2] :=
    rfl
  have huniq :
      (sampleDriver.connection.domains.map Domain.UUIDString).Nodup := by
    decide
  have hrt := (list_nodes_uuid_roundtrip sampleDriver
    [sampleNode1, sampleNode2] h huniq).2 0 (by decide) (by decide)
  exact ⟨h, hrt.1, hrt.2⟩

/-- C4: for a node whose uuid resolves to no domain of the connection,
every mutating operation propagates the lookup error unchanged — it never
returns a boolean (in particular never a silent false). -/
theorem lookup_miss_propagates (drv : LibvirtNodeDriver) (n : Node)
    (hmiss : ∀ d ∈ drv.connection.domains, d.UUIDString ≠ n.uuid) :
    ∃ e, drv._get_domain_for_node n = Except.error e ∧
      drv.reboot_node n = Except.error e ∧
      drv.destroy_node n = Except.error e ∧
      drv.ex_start_node n = Except.error e ∧
      drv.ex_shutdown_node n = Except.error e ∧
      drv.ex_suspend_node n = Except.error e ∧
      drv.ex_resume_node n = Except.error e := by
  have hfind : drv.connection.domains.find?
      (fun d => d.UUIDString == n.uuid) = none := by
    rw [List.find?_eq_none]
    intro d hd
    simp only [beq_iff_eq]
    exact hmiss d hd
  have hget : drv._get_domain_for_node n = Except.error
      (PyError.libvirtError
        ("virDomainLookupByUUIDString failed for " ++ n.uuid)) := by
    simp only [LibvirtNodeDriver._get_domain_for_node,
      Connection.lookupByUUIDString, hfind]
  refine ⟨_, hget, ?_, ?_, ?_, ?_, ?_, ?_⟩ <;>
    simp only [LibvirtNodeDriver.reboot_node,
      LibvirtNodeDriver.destroy_node, LibvirtNodeDriver.ex_start_node,
      LibvirtNodeDriver.ex_shutdown_node,
      LibvirtNodeDriver.ex_suspend_node, LibvirtNodeDriver.ex_resume_node,
      hget, bind, Except.bind]

/-- Witness for C4: on the sample driver, a node with an unknown uuid
makes reboot propagate the lookup error. -/
theorem lookup_miss_propagates_witness :
    sampleDriver.reboot_node missingNode = Except.error
      (PyError.libvirtError
        ("virDomainLookupByUUIDString failed for " ++ missingNode.uuid)) := by
  obtain ⟨e, hget, hreboot, -⟩ :=
    lookup_miss_propagates sampleDriver missingNode (by decide)
  have he : e = PyError.libvirtError
      ("virDomainLookupByUUIDString failed for " ++ missingNode.uuid) := by
    have : Except.error e = Except.error (PyError.libvirtError
        ("virDomainLookupByUUIDString failed for " ++ missingNode.uuid)) :=
      hget.symm.trans rfl
    injection this
  rw [← he]
  exact hreboot

/-- C5: when the libvirt package is unavailable, construction fails with
a RuntimeError regardless of the URI and of the open call (no connection
open is attempted); when it is available, construction performs exactly
the open call on the given URI: a connection it returns becomes the
driver's connection, and an error it raises propagates unwrapped. -/
theorem construction_requires_libvirt :
    (∀ (openF : String → Except PyError Connection) (uri : String),
      LibvirtNodeDriver.construct false openF uri = Except.error
        (PyError.runtimeError
          "Libvirt driver requires libvirt Python package")) ∧
    (∀ (openF openG : String → Except PyError Connection) (uri uri2 : String),
      LibvirtNodeDriver.construct false openF uri =
        LibvirtNodeDriver.construct false openG uri2) ∧
    (∀ (openF : String → Except PyError Connection) (uri : String)
      (c : Connection), openF uri = Except.ok c →
      LibvirtNodeDriver.construct true openF uri =
        Except.ok { _uri := uri, connection := c }) ∧
    (∀ (openF : String → Except PyError Connection) (uri : String)
      (e : PyError), openF uri = Except.error e →
      LibvirtNodeDriver.construct true openF uri = Except.error e) := by
  refine ⟨fun openF uri => rfl, fun openF openG uri uri2 => rfl, ?_, ?_⟩
  · intro openF uri c hc
    simp only [LibvirtNodeDriver.construct, hc, bind, Except.bind]
    rfl
  · intro openF uri e he
    simp only [LibvirtNodeDriver.construct, he, bind, Except.bind]
    rfl

/-- Witness for C5: with a concrete open call, construction with the
package available yields the opened connection, and an open failure
propagates. -/
theorem construction_requires_libvirt_witness :
    LibvirtNodeDriver.construct true (fun _ => Except.ok sampleConnection)
        "qemu:///system" =
      Except.ok { _uri := "qemu:///system",
                  connection := sampleConnection } ∧
    LibvirtNodeDriver.construct true
        (fun _ => Except.error (PyError.other "open failed"))
        "qemu:///system" =
      Except.error (PyError.other "open failed") :=
  ⟨construction_requires_libvirt.2.2.1
      (fun _ => Except.ok sampleConnection) "qemu:///system"
      sampleConnection rfl,
   construction_requires_libvirt.2.2.2
      (fun _ => Except.error (PyError.other "open failed"))
      "qemu:///system" (PyError.other "open failed") rfl⟩

/-- C6: the node listed for a domain whose info tuple reports current
memory m carries extra.used_memory = m / 1024, together with the domain's
uuid and os type, the connection's hypervisor type string, the vcpu count
and the used cpu time. -/
theorem listed_extra_fields (drv : LibvirtNodeDriver) (ns : List Node)
    (h : drv.list_nodes = Except.ok ns) (i : Nat)
    (hd : i < drv.connection.listAllDomains.length) (hn : i < ns.length)
    (inf : DomainInfo)
    (hinf : (drv.connection.listAllDomains.get ⟨i, hd⟩).info =
      Except.ok inf) :
    (ns.get ⟨i, hn⟩).extra =
      { uuid := (drv.connection.listAllDomains.get ⟨i, hd⟩).UUIDString,
        os_type := (drv.connection.listAllDomains.get ⟨i, hd⟩).OSType,
        types := drv.connection.getType,
        used_memory := inf.memory / 1024,
        vcpu_count := inf.vcpu_count,
        used_cpu_time := inf.used_cpu_time } := by
  obtain ⟨hlen, hidx⟩ := list_nodes_loop_spec _ _ _ h
  have hnode := hidx i hd hn
  rw [node_of_domain_ok _ _ _ hinf] at hnode
  injection hnode with hnode
  rw [← hnode]
  rfl

/-- Witness for C6: the first sample node's extra carries
used_memory = 2048 / 1024 = 2 and the expected companion fields. -/
theorem listed_extra_fields_witness :
    sampleNode1.extra =
      { uuid := sampleDomain1.UUIDString, os_type := sampleDomain1.OSType,
        types := sampleConnection.getType,
        used_memory := sampleInfo1.memory / 1024,
        vcpu_count := sampleInfo1.vcpu_count,
        used_cpu_time := sampleInfo1.used_cpu_time } ∧
    sampleNode1.extra.used_memory = 2 := by
  have h := listed_extra_fields sampleDriver [sampleNode1, sampleNode2]
    rfl 0 (by decide) (by decide) sampleInfo1 rfl
  exact ⟨h, by decide⟩

/-- C7: an exception from any per-domain `info()` call aborts the whole
listing: `list_nodes` never returns a partial list, and when the first
failing domain raises `e`, `list_nodes` propagates exactly `e`. -/
theorem listing_aborts_on_error (drv : LibvirtNodeDriver) :
    (∀ d e, d ∈ drv.connection.listAllDomains →
      d.info = Except.error e →
      ∀ ns, drv.list_nodes ≠ Except.ok ns) ∧
    (∀ i (hi : i < drv.connection.listAllDomains.length) (e : PyError),
      (∀ j (hj : j < drv.connection.listAllDomains.length), j < i →
        ∃ inf, (drv.connection.listAllDomains.get ⟨j, hj⟩).info =
          Except.ok inf) →
      (drv.connection.listAllDomains.get ⟨i, hi⟩).info =
        Except.error e →
      drv.list_nodes = Except.error e) := by
  constructor
  · intro d e hd hinf ns hok
    obtain ⟨hlen, hidx⟩ := list_nodes_loop_spec _ _ _ hok
    obtain ⟨⟨i, hi⟩, hget⟩ := List.mem_iff_get.mp hd
    have hnode := hidx i hi (by omega)
    rw [hget] at hnode
    rw [node_of_domain_error _ d e hinf] at hnode
    exact absurd hnode (by simp)
  · intro i hi e hok herr
    exact list_nodes_loop_first_error _ _ i hi e hok herr

/-- Witness for C7: a driver whose second domain fails its `info()` call
propagates that exact exception from `list_nodes`. -/
theorem listing_aborts_on_error_witness :
    badDriver.list_nodes = Except.error (PyError.other "boom") := by
  refine (listing_aborts_on_error badDriver).2 1 (by decide) _ ?_ rfl
  intro j hj hlt
  have hj0 : j = 0 := by omega
  subst hj0
  exact ⟨sampleInfo1, rfl⟩

/-- C8: a connection reporting exactly the two domains with state codes 1
and 5 lists exactly two nodes with states RUNNING and TERMINATED, and
every node `list_nodes` ever returns has empty public and private IP
lists. -/
theorem two_domain_scenario :
    (∀ (drv : LibvirtNodeDriver) (d1 d2 : Domain) (i1 i2 : DomainInfo),
      drv.connection.domains = [d1, d2] →
      d1.info = Except.ok i1 → d2.info = Except.ok i2 →
      i1.state = 1 → i2.state = 5 →
      ∃ n1 n2, drv.list_nodes = Except.ok [n1, n2] ∧
        n1.state = NodeState.RUNNING ∧
        n2.state = NodeState.TERMINATED ∧
        n1.public_ips = [] ∧ n1.private_ips = [] ∧
        n2.public_ips = [] ∧ n2.private_ips = []) ∧
    (∀ (drv : LibvirtNodeDriver) (ns : List Node) (n : Node),
      drv.list_nodes = Except.ok ns → n ∈ ns →
      n.public_ips = [] ∧ n.private_ips = []) := by
  constructor
  · intro drv d1 d2 i1 i2 hdom h1 h2 hs1 hs2
    refine ⟨loop_node drv.connection.getType d1 i1,
      loop_node drv.connection.getType d2 i2, ?_, ?_, ?_, rfl, rfl, rfl,
      rfl⟩
    · show drv.list_nodes = _
      unfold LibvirtNodeDriver.list_nodes Connection.listAllDomains
      rw [hdom]
      simp only [list_nodes_loop, node_of_domain_ok _ _ _ h1,
        node_of_domain_ok _ _ _ h2, bind, Except.bind]
    · simp only [loop_node]
      rw [hs1]
      rfl
    · simp only [loop_node]
      rw [hs2]
      rfl
  · intro drv ns n h hmem
    obtain ⟨hlen, hidx⟩ := list_nodes_loop_spec _ _ _ h
    obtain ⟨⟨i, hi⟩, hget⟩ := List.mem_iff_get.mp hmem
    have hnode := hidx i (hlen ▸ hi) hi
    obtain ⟨inf, -, hval⟩ := node_of_domain_ok_inv _ _ _ hnode
    rw [hget] at hval
    rw [hval]
    exact ⟨rfl, rfl⟩

/-- Witness for C8: the sample driver reports exactly states 1 and 5 and
lists nodes RUNNING and TERMINATED with empty IP lists. -/
theorem two_domain_scenario_witness :
    sampleDriver.list_nodes = Except.ok [sampleNode1, sampleNode2] ∧
    sampleNode1.state = NodeState.RUNNING ∧
    sampleNode2.state = NodeState.TERMINATED ∧
    sampleNode1.public_ips = [] ∧ sampleNode2.private_ips = [] := by
  obtain ⟨n1, n2, hlist, hst1, hst2, hp1, hq1, hp2, hq2⟩ :=
    two_domain_scenario.1 sampleDriver sampleDomain1 sampleDomain2
      sampleInfo1 sampleInfo2 rfl rfl rfl rfl rfl
  have h0 : sampleDriver.list_nodes =
      Except.ok [sampleNode1, sampleNode2] := rfl
  rw [h0] at hlist
  injection hlist with hl
  injection hl with e1 hl
  injection hl with e2 hl
  subst e1
  subst e2
  exact ⟨h0, hst1, hst2, hp1, hq2⟩

/-- C9: `list_nodes` preserves order: the i-th node of a successful
listing is constructed (by the loop body) from the i-th domain reported
by `listAllDomains`. -/
theorem list_nodes_preserves_order (drv : LibvirtNodeDriver)
    (ns : List Node) (h : drv.list_nodes = Except.ok ns) :
    ns.length = drv.connection.listAllDomains.length ∧
    ∀ i (hd : i < drv.connection.listAllDomains.length)
      (hn : i < ns.length),
      node_of_domain drv.connection.getType
        (drv.connection.listAllDomains.get ⟨i, hd⟩) =
        Except.ok (ns.get ⟨i, hn⟩) :=
  list_nodes_loop_spec _ _ _ h

/-- Witness for C9: on the sample driver the first node comes from the
first domain and the second node from the second domain. -/
theorem list_nodes_preserves_order_witness :
    node_of_domain sampleConnection.getType sampleDomain1 =
      Except.ok sampleNode1 ∧
    node_of_domain sampleConnection.getType sampleDomain2 =
      Except.ok sampleNode2 := by
  have h := list_nodes_preserves_order sampleDriver
    [sampleNode1, sampleNode2] rfl
  exact ⟨h.2 0 (by decide) (by decide), h.2 1 (by decide) (by decide)⟩

/-- C10: every mutating operation depends only on the node uuid: two
node arguments with equal uuid give equal lookup and equal results for
all six operations, whatever their other fields. -/
theorem ops_depend_only_on_uuid (drv : LibvirtNodeDriver)
    (n1 n2 : Node) (h : n1.uuid = n2.uuid) :
    drv._get_domain_for_node n1 = drv._get_domain_for_node n2 ∧
    drv.reboot_node n1 = drv.reboot_node n2 ∧
    drv.destroy_node n1 = drv.destroy_node n2 ∧
    drv.ex_start_node n1 = drv.ex_start_node n2 ∧
    drv.ex_shutdown_node n1 = drv.ex_shutdown_node n2 ∧
    drv.ex_suspend_node n1 = drv.ex_suspend_node n2 ∧
    drv.ex_resume_node n1 = drv.ex_resume_node n2 := by
  simp only [LibvirtNodeDriver._get_domain_for_node,
    LibvirtNodeDriver.reboot_node, LibvirtNodeDriver.destroy_node,
    LibvirtNodeDriver.ex_start_node, LibvirtNodeDriver.ex_shutdown_node,
    LibvirtNodeDriver.ex_suspend_node, LibvirtNodeDriver.ex_resume_node,
    h]
  exact ⟨trivial, trivial, trivial, trivial, trivial, trivial, trivial⟩

/-- Witness for C10: two sample nodes sharing a uuid but differing in
name and id get the same reboot result. -/
theorem ops_depend_only_on_uuid_witness :
    sampleNode1.uuid = sampleNodeAlt.uuid ∧
    sampleNode1.name ≠ sampleNodeAlt.name ∧
    sampleDriver.reboot_node sampleNode1 =
      sampleDriver.reboot_node sampleNodeAlt :=
  ⟨rfl, by decide,
   (ops_depend_only_on_uuid sampleDriver sampleNode1 sampleNodeAlt
      rfl).2.1⟩

end LibvirtSpec
